import Mathlib

/-!
Shallow embedding of `apps/issuer/api.py` from the badgr-server repository:
badge-class CRUD, assertion listing, and the revocation workflow.

Each HTTP handler becomes a pure Lean function over explicit in-memory stores.
ORM lookups become `List.find?` over those stores, the permission subsystem
becomes a boolean predicate parameter, and the optional `badgebook` companion
app becomes flags plus an award store.  The revocation handler additionally
returns a trace of the data-access effects it performed, so that ordering
claims (validation before lookup) are statable.
-/

namespace BadgrIssuer

/-- A badge class as the handlers in `api.py` observe it: the slug it is
looked up by, its owning issuer's slug, the serializer-managed fields, and the
three deletion-precondition observations (`recipient_count()`,
`pathway_element_count()`, `cached_completion_elements()`). -/
structure BadgeClass where
  slug : String
  issuer_slug : String
  name : String
  criteria : String
  description : String
  image : String
  recipient_count : Nat
  pathway_element_count : Nat
  cached_completion_elements : List String
  deriving Repr, DecidableEq

/-- A badge instance (assertion) as used by `api.py`: primary key, slug,
owning issuer and badge class, recipient identifier, revocation state, and
the baked image asset (`none` once deleted). -/
structure BadgeInstance where
  id : Nat
  slug : String
  issuer_slug : String
  badge_class_slug : String
  recipient_identifier : String
  revoked : Bool
  revocation_reason : Option String
  image : Option String
  deriving Repr, DecidableEq

/-- An issuer, reduced to the slug the handlers look it up by. -/
structure Issuer where
  slug : String
  deriving Repr, DecidableEq

/-- `badgebook.models.BadgeObjectiveAward`: an award record of the optional
companion app, referencing a badge instance by id. -/
structure BadgeObjectiveAward where
  id : Nat
  badge_instance_id : Nat
  deriving Repr, DecidableEq

/-- The payload of a `Response(...)`: either a plain string, a serialized
representation of an object or list of objects, or no payload at all
(`Response(status=...)`). -/
inductive Body where
  | text (s : String)
  | badgeclassRep (b : BadgeClass)
  | instanceRep (i : BadgeInstance)
  | instanceListRep (l : List BadgeInstance)
  | empty
  deriving Repr, DecidableEq

/-- An HTTP response: status code and payload. -/
structure HttpResponse where
  status : Nat
  body : Body
  deriving Repr, DecidableEq

/-- What a handler can produce: a response, a DRF `ValidationError` (which the
framework turns into an HTTP 400), or an unhandled Python exception (which the
framework turns into an HTTP 5xx). -/
inductive HandlerResult where
  | ok (r : HttpResponse)
  | validationError (msg : String)
  | pythonError (msg : String)
  deriving Repr, DecidableEq

/-- The HTTP status the framework boundary assigns to a handler result:
`ValidationError` surfaces as 400, an unhandled exception as 500. -/
def HandlerResult.statusCode : HandlerResult → Nat
  | .ok r => r.status
  | .validationError _ => 400
  | .pythonError _ => 500

/-- Outcome of `Model.cached.get(slug=...)` followed by
`self.check_object_permissions(...)`: the first raises `DoesNotExist` when no
object has the slug, the second raises `PermissionDenied` when the caller
lacks object permission. -/
inductive Lookup (α : Type) where
  | notFound
  | forbidden
  | found (a : α)
  deriving Repr, DecidableEq

/-- The shared try-block of the `BadgeClassDetail` verbs:
`BadgeClass.cached.get(slug=badgeSlug)` then `check_object_permissions`. -/
def BadgeClassDetail.lookup (db : List BadgeClass) (may_edit : BadgeClass → Bool)
    (badgeSlug : String) : Lookup BadgeClass :=
  match db.find? (fun bc => bc.slug == badgeSlug) with
  | none => .notFound
  | some bc => if may_edit bc then .found bc else .forbidden

/-- Modelled from the spec: `AbstractIssuerAPIEndpoint.get_object`
(`issuer/api_v1.py`, not included in the sources) resolves a slug within the
view's queryset under the caller's permission scope, returning the object when
it exists and is permitted and `None` otherwise (missing and forbidden are
merged). `slugOf` abstracts the model's slug field. -/
def get_object {α : Type} (slugOf : α → String) (queryset : List α)
    (permitted : α → Bool) (slug : String) : Option α :=
  match queryset.find? (fun a => slugOf a == slug) with
  | none => none
  | some a => if permitted a then some a else none

/-- `BadgeClassDetail.get`: 404 with a message when the badge class is missing
or the caller may not edit it, otherwise the serialized representation. -/
def BadgeClassDetail.get (db : List BadgeClass) (may_edit : BadgeClass → Bool)
    (badgeSlug : String) : HttpResponse :=
  match BadgeClassDetail.lookup db may_edit badgeSlug with
  | .notFound =>
      ⟨404, .text ("BadgeClass " ++ badgeSlug ++ " could not be found, or inadequate permissions.")⟩
  | .forbidden =>
      ⟨404, .text ("BadgeClass " ++ badgeSlug ++ " could not be found, or inadequate permissions.")⟩
  | .found bc => ⟨200, .badgeclassRep bc⟩

/-- `BadgeClassDetail.delete`: bare 404 on missing/forbidden; otherwise the
three preconditions in source order (recipient count, pathway element count,
completion elements), each a 400 with its own message; only then delete. -/
def BadgeClassDetail.delete (db : List BadgeClass) (may_edit : BadgeClass → Bool)
    (badgeSlug : String) : HttpResponse × List BadgeClass :=
  match BadgeClassDetail.lookup db may_edit badgeSlug with
  | .notFound => (⟨404, .empty⟩, db)
  | .forbidden => (⟨404, .empty⟩, db)
  | .found bc =>
      if bc.recipient_count > 0 then
        (⟨400, .text "Badge could not be deleted. It has already been issued at least once."⟩, db)
      else if bc.pathway_element_count > 0 then
        (⟨400, .text "Badge could not be deleted. It is being used as a pathway completion requirement."⟩, db)
      else if bc.cached_completion_elements.length > 0 then
        (⟨400, .text "Badge could not be deleted. It is being used as a pathway completion badge."⟩, db)
      else
        (⟨200, .text ("Badge " ++ badgeSlug ++ " has been deleted.")⟩,
         db.eraseP (fun b => b.slug == badgeSlug))

/-- The characters Python's `urlparse.scheme_chars` accepts in a URL scheme. -/
def isSchemeChar (c : Char) : Bool :=
  c.isAlpha || c.isDigit || c == '+' || c == '-' || c == '.'

/-- The scheme that Python 2's `urlparse.urlparse(url).scheme` returns: the
lowered text before the first colon, provided the colon is not at position 0,
every character before it is a scheme character, and the remainder is not a
bare port number; `http` is special-cased without the port check. -/
def urlparse_scheme (url : String) : String :=
  let cs := url.toList
  match cs.findIdx? (fun c => c == ':') with
  | none => ""
  | some i =>
      if i == 0 then ""
      else
        let before := cs.take i
        let rest := cs.drop (i + 1)
        if before == ['h', 't', 't', 'p'] then "http"
        else if before.all isSchemeChar && (rest.isEmpty || rest.any (fun c => !c.isDigit)) then
          String.mk (before.map Char.toLower)
        else ""

/-- The value found at the `image` key of a PUT payload: a freshly uploaded
binary (`isinstance(new_image, UploadedFile)`) or a string. -/
inductive ImageValue where
  | uploadedFile (content : String)
  | strVal (s : String)
  deriving Repr, DecidableEq

/-- A `BadgeClassDetail.put` payload; `image := none` models a payload with no
`image` key, for which `request.data.get('image')` yields `None`. -/
structure BadgeClassPutData where
  name : String
  criteria : String
  description : String
  image : Option ImageValue
  deriving Repr, DecidableEq

/-- The image-retention test of `BadgeClassDetail.put`: an `UploadedFile` is
kept, a string is kept only when its urlparse scheme is `data`. -/
def imageKept : ImageValue → Bool
  | .uploadedFile _ => true
  | .strVal s => urlparse_scheme s == "data"

/-- `serializer.save()` on the cleaned data: the non-image fields are applied;
the stored image is replaced only when the `image` key survived cleaning. -/
def applyPut (bc : BadgeClass) (data : BadgeClassPutData)
    (cleanedImage : Option ImageValue) : BadgeClass :=
  { bc with
    name := data.name
    criteria := data.criteria
    description := data.description
    image :=
      match cleanedImage with
      | some (.uploadedFile content) => content
      | some (.strVal s) => s
      | none => bc.image }

/-- `BadgeClassDetail.put`: 404 with a message on missing/forbidden; with an
absent `image` key, `urlparse.urlparse(None)` raises `AttributeError`;
otherwise a non-uploaded, non-data-URI image is popped from the update set
before the serializer is applied. -/
def BadgeClassDetail.put (db : List BadgeClass) (may_edit : BadgeClass → Bool)
    (badgeSlug : String) (data : BadgeClassPutData) :
    HandlerResult × List BadgeClass :=
  match BadgeClassDetail.lookup db may_edit badgeSlug with
  | .notFound =>
      (.ok ⟨404, .text ("BadgeClass " ++ badgeSlug ++ " could not be found, or inadequate permissions.")⟩, db)
  | .forbidden =>
      (.ok ⟨404, .text ("BadgeClass " ++ badgeSlug ++ " could not be found, or inadequate permissions.")⟩, db)
  | .found bc =>
      match data.image with
      | none => (.pythonError "AttributeError", db)
      | some img =>
          let cleanedImage := if imageKept img then some img else none
          let bc' := applyPut bc data cleanedImage
          (.ok ⟨200, .badgeclassRep bc'⟩,
           db.map (fun b => if b.slug == badgeSlug then bc' else b))

/-- `BadgeInstanceList.get`: resolve the badge class within the issuer-scoped
queryset, then list its instances filtered to `revoked=False`; an empty result
is still a 200 with an empty list. -/
def BadgeInstanceList.get (classes : List BadgeClass) (instances : List BadgeInstance)
    (may_issue : BadgeClass → Bool) (issuerSlug badgeSlug : String) : HttpResponse :=
  let badgeclass_queryset := classes.filter (fun c => c.issuer_slug == issuerSlug)
  match get_object (fun c => c.slug) badgeclass_queryset may_issue badgeSlug with
  | none =>
      ⟨404, .text ("BadgeClass " ++ badgeSlug ++ " not found or inadequate permissions.")⟩
  | some bc =>
      let badge_instances :=
        (instances.filter (fun i => i.badge_class_slug == bc.slug)).filter
          (fun i => i.revoked == false)
      ⟨200, .instanceListRep badge_instances⟩

/-- `IssuerBadgeInstanceList.get`: resolve the issuer, then filter its
instances by the optional `recipient` query parameter, always with
`revoked=False`. -/
def IssuerBadgeInstanceList.get (issuers : List Issuer) (instances : List BadgeInstance)
    (is_staff : Issuer → Bool) (issuerSlug : String) (recipient : Option String) :
    HttpResponse :=
  match get_object (fun i => i.slug) issuers is_staff issuerSlug with
  | none => ⟨404, .empty⟩
  | some issuer =>
      let badgeinstance_set := instances.filter (fun i => i.issuer_slug == issuer.slug)
      let result :=
        match recipient with
        | some r =>
            badgeinstance_set.filter
              (fun i => i.recipient_identifier == r && i.revoked == false)
        | none => badgeinstance_set.filter (fun i => i.revoked == false)
      ⟨200, .instanceListRep result⟩

/-- `BadgeInstanceDetail.get`: `BadgeInstance.cached.get(slug=assertionSlug)`
and nothing else — the issuer and badge slugs from the path are never read and
no object permission check is performed; bare 404 when missing. -/
def BadgeInstanceDetail.get (instances : List BadgeInstance)
    (may_edit : BadgeInstance → Bool) (issuerSlug badgeSlug assertionSlug : String) :
    HttpResponse :=
  match instances.find? (fun i => i.slug == assertionSlug) with
  | none => ⟨404, .empty⟩
  | some current_assertion => ⟨200, .instanceRep current_assertion⟩

/-- The DRF dispatch path for `BadgeInstanceDetail.get`: the view-level
`AuthenticatedWithVerifiedEmail` permission gates the handler. -/
def BadgeInstanceDetail.dispatchGet (authVerified : Bool) (instances : List BadgeInstance)
    (may_edit : BadgeInstance → Bool) (issuerSlug badgeSlug assertionSlug : String) :
    HttpResponse :=
  if authVerified then
    BadgeInstanceDetail.get instances may_edit issuerSlug badgeSlug assertionSlug
  else ⟨403, .empty⟩

/-- The world the revocation handler acts on: the instance store, whether the
optional `badgebook` app is installed and its models module importable, and
its award store. -/
structure RevokeWorld where
  instances : List BadgeInstance
  badgebook_installed : Bool
  badgebook_importable : Bool
  awards : List BadgeObjectiveAward
  deriving Repr, DecidableEq

/-- A data-access effect performed by the revocation handler, recorded in
order. -/
inductive Effect where
  | lookupInstance (slug : String)
  | deleteImageAsset (slug : String)
  | saveInstance (slug : String)
  | lookupAward (instanceId : Nat)
  | deleteAward (awardId : Nat)
  | logEvent (name : String)
  deriving Repr, DecidableEq

/-- The `badgebook` block of `BadgeInstanceDetail.delete`: when the app is
installed and importable, `BadgeObjectiveAward.cached.get(badge_instance_id=...)`
is attempted; `DoesNotExist` is passed over, otherwise the award is deleted.
Returns the resulting award store and the effects performed. -/
def badgebookCleanup (w : RevokeWorld) (instanceId : Nat) :
    List BadgeObjectiveAward × List Effect :=
  if w.badgebook_installed then
    if w.badgebook_importable then
      match w.awards.find? (fun a => a.badge_instance_id == instanceId) with
      | none => (w.awards, [.lookupAward instanceId])
      | some award =>
          (w.awards.eraseP (fun a => a.id == award.id),
           [.lookupAward instanceId, .deleteAward award.id])
    else (w.awards, [])
  else (w.awards, [])

/-- `BadgeInstanceDetail.delete` (revocation).  The source raises
`ValidationError` when `revocation_reason` is absent, before `get_object` is
called (the Python message spans a backslash line continuation whose embedded
indentation is elided here).  Then: bare 404 when the instance is unresolved,
400 when already revoked, otherwise flip `revoked`, store the reason, delete
the baked image, save, run the `badgebook` cleanup, log, and return 200. -/
def BadgeInstanceDetail.delete (w : RevokeWorld) (may_edit : BadgeInstance → Bool)
    (assertionSlug : String) (revocation_reason : Option String) :
    HandlerResult × RevokeWorld × List Effect :=
  match revocation_reason with
  | none =>
      (.validationError "The parameter revocation_reason is required to revoke a badge assertion",
       w, [])
  | some reason =>
      match get_object (fun i => i.slug) w.instances may_edit assertionSlug with
      | none => (.ok ⟨404, .empty⟩, w, [.lookupInstance assertionSlug])
      | some current_assertion =>
          if current_assertion.revoked then
            (.ok ⟨400, .text "Assertion is already revoked."⟩, w,
             [.lookupInstance assertionSlug])
          else
            let revokedInst :=
              { current_assertion with
                revoked := true
                revocation_reason := some reason
                image := none }
            let instances' :=
              w.instances.map
                (fun i => if i.id == current_assertion.id then revokedInst else i)
            let cleanup := badgebookCleanup w current_assertion.id
            (.ok ⟨200, .text ("Assertion " ++ revokedInst.slug ++ " has been revoked.")⟩,
             { w with instances := instances', awards := cleanup.1 },
             [.lookupInstance assertionSlug,
              .deleteImageAsset current_assertion.slug,
              .saveInstance current_assertion.slug] ++ cleanup.2 ++
              [.logEvent "BadgeAssertionRevoked"])

/-- A sample unrevoked instance used to exercise the handlers. -/
def sampleUnrevoked : BadgeInstance :=
  ⟨1, "abc123", "acme", "excellence", "earner@example.com", false, none, some "baked.png"⟩

/-- A sample already-revoked instance used to exercise the handlers. -/
def sampleRevoked : BadgeInstance :=
  ⟨2, "def456", "acme", "excellence", "earner@example.com", true, some "policy violation", none⟩

/-- A sample world for the revocation handler: both instances, badgebook
installed and importable, one award referencing instance 1. -/
def sampleWorld : RevokeWorld :=
  ⟨[sampleUnrevoked, sampleRevoked], true, true, [⟨7, 1⟩]⟩

/-- A resolved `get_object` result is a member of the queryset. -/
theorem get_object_mem {α : Type} (slugOf : α → String) (queryset : List α)
    (permitted : α → Bool) (slug : String) (a : α)
    (h : get_object slugOf queryset permitted slug = some a) : a ∈ queryset := by
  unfold get_object at h
  cases hf : queryset.find? (fun x => slugOf x == slug) with
  | none => rw [hf] at h; exact absurd h (by simp)
  | some b =>
      rw [hf] at h
      by_cases hp : permitted b
      · simp only [hp, if_true, Option.some.injEq] at h
        exact h ▸ List.mem_of_find?_eq_some hf
      · simp [hp] at h

/-- C1: for every badge class the lookup resolves, the delete succeeds
(200 with the message naming the slug) iff its recipient count and pathway
element count are zero and its cached completion elements are empty; otherwise
it is a 400 carrying the message of the first failing check, in the order
recipient count, pathway element count, completion elements. -/
theorem c1_badgeclass_delete_preconditions (db : List BadgeClass)
    (may_edit : BadgeClass → Bool) (badgeSlug : String) (bc : BadgeClass)
    (h : BadgeClassDetail.lookup db may_edit badgeSlug = .found bc) :
    (((BadgeClassDetail.delete db may_edit badgeSlug).1.status = 200 ∧
      (BadgeClassDetail.delete db may_edit badgeSlug).1.body =
        .text ("Badge " ++ badgeSlug ++ " has been deleted.")) ↔
      (bc.recipient_count = 0 ∧ bc.pathway_element_count = 0 ∧
       bc.cached_completion_elements = [])) ∧
    (bc.recipient_count > 0 →
      (BadgeClassDetail.delete db may_edit badgeSlug).1 =
        ⟨400, .text "Badge could not be deleted. It has already been issued at least once."⟩) ∧
    (bc.recipient_count = 0 → bc.pathway_element_count > 0 →
      (BadgeClassDetail.delete db may_edit badgeSlug).1 =
        ⟨400, .text "Badge could not be deleted. It is being used as a pathway completion requirement."⟩) ∧
    (bc.recipient_count = 0 → bc.pathway_element_count = 0 →
      bc.cached_completion_elements ≠ [] →
      (BadgeClassDetail.delete db may_edit badgeSlug).1 =
        ⟨400, .text "Badge could not be deleted. It is being used as a pathway completion badge."⟩) := by
  simp only [BadgeClassDetail.delete, h]
  refine ⟨⟨?_, ?_⟩, ?_, ?_, ?_⟩
  · intro hsucc
    by_cases h1 : bc.recipient_count > 0
    · simp [h1] at hsucc
    · by_cases h2 : bc.pathway_element_count > 0
      · simp [h1, h2] at hsucc
      · by_cases h3 : bc.cached_completion_elements.length > 0
        · simp [h1, h2, h3] at hsucc
        · exact ⟨by omega, by omega, List.length_eq_zero.mp (by omega)⟩
  · rintro ⟨e1, e2, e3⟩
    simp [e1, e2, e3]
  · intro h1
    simp [h1]
  · intro h1 h2
    simp [h1, h2]
  · intro h1 h2 h3
    simp [h1, h2, List.length_pos.mpr h3]

/-- C1 witness: a badge class with one recipient is rejected with the
already-issued message. -/
theorem c1_badgeclass_delete_preconditions_witness :
    (BadgeClassDetail.delete
      [⟨"excellence", "acme", "n", "c", "d", "img", 1, 0, []⟩]
      (fun _ => true) "excellence").1 =
      ⟨400, .text "Badge could not be deleted. It has already been issued at least once."⟩ :=
  (c1_badgeclass_delete_preconditions
    [⟨"excellence", "acme", "n", "c", "d", "img", 1, 0, []⟩]
    (fun _ => true) "excellence"
    ⟨"excellence", "acme", "n", "c", "d", "img", 1, 0, []⟩
    (by decide)).2.1 (by decide)

/-- C7: on each of the detail, delete and update verbs, a badge class that
does not exist and one the caller may not edit produce the same 404
response. -/
theorem c7_notfound_forbidden_indistinguishable (db1 db2 : List BadgeClass)
    (p1 p2 : BadgeClass → Bool) (badgeSlug : String) (data : BadgeClassPutData)
    (h1 : BadgeClassDetail.lookup db1 p1 badgeSlug = .notFound)
    (h2 : BadgeClassDetail.lookup db2 p2 badgeSlug = .forbidden) :
    (BadgeClassDetail.get db1 p1 badgeSlug = BadgeClassDetail.get db2 p2 badgeSlug ∧
     (BadgeClassDetail.get db1 p1 badgeSlug).status = 404) ∧
    ((BadgeClassDetail.delete db1 p1 badgeSlug).1 =
       (BadgeClassDetail.delete db2 p2 badgeSlug).1 ∧
     (BadgeClassDetail.delete db1 p1 badgeSlug).1.status = 404) ∧
    ((BadgeClassDetail.put db1 p1 badgeSlug data).1 =
       (BadgeClassDetail.put db2 p2 badgeSlug data).1 ∧
     ((BadgeClassDetail.put db1 p1 badgeSlug data).1).statusCode = 404) := by
  simp [BadgeClassDetail.get, BadgeClassDetail.delete, BadgeClassDetail.put,
    HandlerResult.statusCode, h1, h2]

/-- C7 witness: for the slug `excellence`, an empty store and a store holding
the badge class but with all permissions denied yield the same 404 detail
response. -/
theorem c7_notfound_forbidden_indistinguishable_witness :
    BadgeClassDetail.get [] (fun _ => true) "excellence" =
      BadgeClassDetail.get [⟨"excellence", "acme", "n", "c", "d", "img", 0, 0, []⟩]
        (fun _ => false) "excellence" ∧
    (BadgeClassDetail.get [] (fun _ => true) "excellence").status = 404 :=
  (c7_notfound_forbidden_indistinguishable []
    [⟨"excellence", "acme", "n", "c", "d", "img", 0, 0, []⟩]
    (fun _ => true) (fun _ => false) "excellence"
    ⟨"n", "c", "d", none⟩ (by decide) (by decide)).1

/-- C9: the single-assertion GET returns the found instance's representation
with 200 whenever an instance with the slug exists — the `revoked` flag is
never consulted, so this holds for revoked instances as well. -/
theorem c9_single_assertion_get_ignores_revoked (instances : List BadgeInstance)
    (may_edit : BadgeInstance → Bool) (issuerSlug badgeSlug assertionSlug : String)
    (inst : BadgeInstance)
    (h : instances.find? (fun i => i.slug == assertionSlug) = some inst) :
    BadgeInstanceDetail.get instances may_edit issuerSlug badgeSlug assertionSlug =
      ⟨200, .instanceRep inst⟩ := by
  simp [BadgeInstanceDetail.get, h]

/-- C9 witness: a revoked instance is still returned with 200. -/
theorem c9_single_assertion_get_ignores_revoked_witness :
    BadgeInstanceDetail.get
      [⟨1, "abc123", "acme", "excellence", "r@example.com", true, some "reason", none⟩]
      (fun _ => true) "acme" "excellence" "abc123" =
      ⟨200, .instanceRep
        ⟨1, "abc123", "acme", "excellence", "r@example.com", true, some "reason", none⟩⟩ :=
  c9_single_assertion_get_ignores_revoked
    [⟨1, "abc123", "acme", "excellence", "r@example.com", true, some "reason", none⟩]
    (fun _ => true) "acme" "excellence" "abc123"
    ⟨1, "abc123", "acme", "excellence", "r@example.com", true, some "reason", none⟩
    (by decide)

/-- C10: for an authenticated caller with a verified email, the response of
the single-assertion GET depends only on the assertion slug: changing the
issuer slug, the badge slug, or the object-level edit-permission predicate
leaves the response unchanged, as no object permission check is performed. -/
theorem c10_get_depends_only_on_assertion_slug (instances : List BadgeInstance)
    (m1 m2 : BadgeInstance → Bool) (is1 bs1 is2 bs2 assertionSlug : String) :
    BadgeInstanceDetail.dispatchGet true instances m1 is1 bs1 assertionSlug =
      BadgeInstanceDetail.dispatchGet true instances m2 is2 bs2 assertionSlug := rfl

/-- C2: revoking an instance whose revoked flag is already set returns 400
with the already-revoked message and leaves the whole world — the instance
store, so the revoked flag, revocation reason and image asset of every
instance, and the award store — unchanged; the only effect is the lookup. -/
theorem c2_revoke_already_revoked (w : RevokeWorld) (may_edit : BadgeInstance → Bool)
    (assertionSlug reason : String) (inst : BadgeInstance)
    (h : get_object (fun i => i.slug) w.instances may_edit assertionSlug = some inst)
    (hrev : inst.revoked = true) :
    BadgeInstanceDetail.delete w may_edit assertionSlug (some reason) =
      (.ok ⟨400, .text "Assertion is already revoked."⟩, w,
       [.lookupInstance assertionSlug]) := by
  simp [BadgeInstanceDetail.delete, h, hrev]

/-- C2 witness: a second revoke of the already-revoked sample instance is a
400 that leaves the sample world untouched. -/
theorem c2_revoke_already_revoked_witness :
    BadgeInstanceDetail.delete sampleWorld (fun _ => true) "def456" (some "again") =
      (.ok ⟨400, .text "Assertion is already revoked."⟩, sampleWorld,
       [.lookupInstance "def456"]) :=
  c2_revoke_already_revoked sampleWorld (fun _ => true) "def456" "again"
    sampleRevoked (by decide) rfl

/-- C3: revoking a resolved, unrevoked instance with a present reason flips
its revoked flag, stores the reason, clears the baked image, persists the
updated instance into the store, and returns 200 with the message naming the
slug. -/
theorem c3_revoke_success (w : RevokeWorld) (may_edit : BadgeInstance → Bool)
    (assertionSlug reason : String) (inst : BadgeInstance)
    (h : get_object (fun i => i.slug) w.instances may_edit assertionSlug = some inst)
    (hrev : inst.revoked = false) :
    (BadgeInstanceDetail.delete w may_edit assertionSlug (some reason)).1 =
      .ok ⟨200, .text ("Assertion " ++ inst.slug ++ " has been revoked.")⟩ ∧
    { inst with revoked := true, revocation_reason := some reason, image := none } ∈
      (BadgeInstanceDetail.delete w may_edit assertionSlug (some reason)).2.1.instances := by
  constructor
  · simp [BadgeInstanceDetail.delete, h, hrev]
  · have hmem : inst ∈ w.instances := get_object_mem _ _ _ _ _ h
    simp only [BadgeInstanceDetail.delete, h, hrev, Bool.false_eq_true, if_false]
    simpa using
      List.mem_map_of_mem
        (fun i => if i.id == inst.id then
          { inst with revoked := true, revocation_reason := some reason, image := none }
          else i) hmem

/-- C3 witness: revoking the sample unrevoked instance with reason
`policy violation` answers 200 and stores the revoked instance. -/
theorem c3_revoke_success_witness :
    (BadgeInstanceDetail.delete sampleWorld (fun _ => true) "abc123"
        (some "policy violation")).1 =
      .ok ⟨200, .text "Assertion abc123 has been revoked."⟩ ∧
    { sampleUnrevoked with
      revoked := true
      revocation_reason := some "policy violation"
      image := none } ∈
      (BadgeInstanceDetail.delete sampleWorld (fun _ => true) "abc123"
        (some "policy violation")).2.1.instances :=
  c3_revoke_success sampleWorld (fun _ => true) "abc123" "policy violation"
    sampleUnrevoked (by decide) rfl

/-- C4: a revoke request without a revocation reason yields a
`ValidationError` (an HTTP 400 at the framework boundary), the world is
returned unchanged, and the effect trace is empty — no lookup, read or
mutation happened. -/
theorem c4_revoke_missing_reason_fail_fast (w : RevokeWorld)
    (may_edit : BadgeInstance → Bool) (assertionSlug : String) :
    BadgeInstanceDetail.delete w may_edit assertionSlug none =
      (.validationError
        "The parameter revocation_reason is required to revoke a badge assertion",
       w, []) ∧
    (BadgeInstanceDetail.delete w may_edit assertionSlug none).1.statusCode = 400 :=
  ⟨rfl, rfl⟩

/-- C8: on a successful revoke, the badgebook cleanup is a silent no-op —
the award store is unchanged and the response is still 200 — whenever the app
is not installed, its models are not importable, or no award references the
instance; when installed, importable, and an award matches, that award is
deleted from the store. -/
theorem c8_badgebook_cleanup (w : RevokeWorld) (may_edit : BadgeInstance → Bool)
    (assertionSlug reason : String) (inst : BadgeInstance)
    (h : get_object (fun i => i.slug) w.instances may_edit assertionSlug = some inst)
    (hrev : inst.revoked = false) :
    (BadgeInstanceDetail.delete w may_edit assertionSlug (some reason)).1.statusCode = 200 ∧
    (w.badgebook_installed = false →
      (BadgeInstanceDetail.delete w may_edit assertionSlug (some reason)).2.1.awards =
        w.awards) ∧
    (w.badgebook_importable = false →
      (BadgeInstanceDetail.delete w may_edit assertionSlug (some reason)).2.1.awards =
        w.awards) ∧
    (w.awards.find? (fun a => a.badge_instance_id == inst.id) = none →
      (BadgeInstanceDetail.delete w may_edit assertionSlug (some reason)).2.1.awards =
        w.awards) ∧
    (∀ award, w.badgebook_installed = true → w.badgebook_importable = true →
      w.awards.find? (fun a => a.badge_instance_id == inst.id) = some award →
      (BadgeInstanceDetail.delete w may_edit assertionSlug (some reason)).2.1.awards =
        w.awards.eraseP (fun a => a.id == award.id)) := by
  have hawards :
      (BadgeInstanceDetail.delete w may_edit assertionSlug (some reason)).2.1.awards =
        (badgebookCleanup w inst.id).1 := by
    simp [BadgeInstanceDetail.delete, h, hrev]
  refine ⟨?_, ?_, ?_, ?_, ?_⟩
  · simp [BadgeInstanceDetail.delete, h, hrev, HandlerResult.statusCode]
  · intro hi
    rw [hawards]; simp [badgebookCleanup, hi]
  · intro hi
    rw [hawards]
    by_cases hin : w.badgebook_installed <;> simp [badgebookCleanup, hin, hi]
  · intro hf
    rw [hawards]
    by_cases hin : w.badgebook_installed <;>
      by_cases him : w.badgebook_importable <;>
        simp [badgebookCleanup, hin, him, hf]
  · intro award hin him hf
    rw [hawards]; simp [badgebookCleanup, hin, him, hf]

/-- C8 witness: in the sample world (badgebook installed and importable, one
award referencing instance 1), revoking instance 1 deletes the award and
still answers 200. -/
theorem c8_badgebook_cleanup_witness :
    (BadgeInstanceDetail.delete sampleWorld (fun _ => true) "abc123"
        (some "policy violation")).1.statusCode = 200 ∧
    (BadgeInstanceDetail.delete sampleWorld (fun _ => true) "abc123"
        (some "policy violation")).2.1.awards =
      sampleWorld.awards.eraseP (fun a => a.id == 7) :=
  ⟨(c8_badgebook_cleanup sampleWorld (fun _ => true) "abc123" "policy violation"
      sampleUnrevoked (by decide) rfl).1,
   (c8_badgebook_cleanup sampleWorld (fun _ => true) "abc123" "policy violation"
      sampleUnrevoked (by decide) rfl).2.2.2.2 ⟨7, 1⟩ rfl rfl (by decide)⟩

/-- C5: whenever the per-badge-class assertion list or the per-issuer list
answers 200 with a list of instances, no listed instance is revoked; and when
a recipient identifier was supplied to the per-issuer list, every listed
instance carries that recipient identifier. -/
theorem c5_listings_exclude_revoked (classes : List BadgeClass)
    (instances : List BadgeInstance) (issuers : List Issuer)
    (may_issue : BadgeClass → Bool) (is_staff : Issuer → Bool)
    (issuerSlug badgeSlug : String) (recipient : Option String)
    (l1 l2 : List BadgeInstance)
    (h1 : BadgeInstanceList.get classes instances may_issue issuerSlug badgeSlug =
      ⟨200, .instanceListRep l1⟩)
    (h2 : IssuerBadgeInstanceList.get issuers instances is_staff issuerSlug recipient =
      ⟨200, .instanceListRep l2⟩) :
    (∀ i ∈ l1, i.revoked = false) ∧
    (∀ i ∈ l2, i.revoked = false) ∧
    (∀ r, recipient = some r → ∀ i ∈ l2, i.recipient_identifier = r) := by
  refine ⟨?_, ?_, ?_⟩
  · intro i hi
    simp only [BadgeInstanceList.get] at h1
    split at h1
    · simp at h1
    · simp only [HttpResponse.mk.injEq, Body.instanceListRep.injEq, true_and] at h1
      rw [← h1] at hi
      simpa using (List.mem_filter.mp hi).2
  · intro i hi
    simp only [IssuerBadgeInstanceList.get] at h2
    split at h2
    · simp at h2
    · cases hr : recipient with
      | none =>
          rw [hr] at h2
          simp only [HttpResponse.mk.injEq, Body.instanceListRep.injEq, true_and] at h2
          rw [← h2] at hi
          simpa using (List.mem_filter.mp hi).2
      | some r =>
          rw [hr] at h2
          simp only [HttpResponse.mk.injEq, Body.instanceListRep.injEq, true_and] at h2
          rw [← h2] at hi
          have hp := (List.mem_filter.mp hi).2
          simp only [Bool.and_eq_true, beq_iff_eq] at hp
          exact hp.2
  · intro r hr i hi
    simp only [IssuerBadgeInstanceList.get] at h2
    split at h2
    · simp at h2
    · rw [hr] at h2
      simp only [HttpResponse.mk.injEq, Body.instanceListRep.injEq, true_and] at h2
      rw [← h2] at hi
      have hp := (List.mem_filter.mp hi).2
      simp only [Bool.and_eq_true, beq_iff_eq] at hp
      exact hp.1

/-- C5 witness: against a store holding one unrevoked and one revoked
instance of the `excellence` badge class, both listings return only the
unrevoked sample instance, which is unrevoked and carries the queried
recipient identifier. -/
theorem c5_listings_exclude_revoked_witness :
    sampleUnrevoked.revoked = false ∧
    sampleUnrevoked.recipient_identifier = "earner@example.com" :=
  ⟨(c5_listings_exclude_revoked
      [⟨"excellence", "acme", "n", "c", "d", "img", 2, 0, []⟩]
      [sampleUnrevoked, sampleRevoked] [⟨"acme"⟩]
      (fun _ => true) (fun _ => true) "acme" "excellence"
      (some "earner@example.com") [sampleUnrevoked] [sampleUnrevoked]
      (by decide) (by decide)).1 sampleUnrevoked (by decide),
   (c5_listings_exclude_revoked
      [⟨"excellence", "acme", "n", "c", "d", "img", 2, 0, []⟩]
      [sampleUnrevoked, sampleRevoked] [⟨"acme"⟩]
      (fun _ => true) (fun _ => true) "acme" "excellence"
      (some "earner@example.com") [sampleUnrevoked] [sampleUnrevoked]
      (by decide) (by decide)).2.2 "earner@example.com" rfl
      sampleUnrevoked (by decide)⟩

/-- C6: on an update of a resolved badge class, an uploaded binary image and
a data-URI string image are applied and replace the stored image, while any
other image value is popped from the update set and the stored image is kept
unchanged. -/
theorem c6_put_image_handling (db : List BadgeClass) (may_edit : BadgeClass → Bool)
    (badgeSlug : String) (data : BadgeClassPutData) (bc : BadgeClass)
    (h : BadgeClassDetail.lookup db may_edit badgeSlug = .found bc) :
    (∀ content, data.image = some (.uploadedFile content) →
      (BadgeClassDetail.put db may_edit badgeSlug data).1 =
        .ok ⟨200, .badgeclassRep (applyPut bc data (some (.uploadedFile content)))⟩ ∧
      (applyPut bc data (some (.uploadedFile content))).image = content) ∧
    (∀ s, data.image = some (.strVal s) → urlparse_scheme s = "data" →
      (BadgeClassDetail.put db may_edit badgeSlug data).1 =
        .ok ⟨200, .badgeclassRep (applyPut bc data (some (.strVal s)))⟩ ∧
      (applyPut bc data (some (.strVal s))).image = s) ∧
    (∀ s, data.image = some (.strVal s) → urlparse_scheme s ≠ "data" →
      (BadgeClassDetail.put db may_edit badgeSlug data).1 =
        .ok ⟨200, .badgeclassRep (applyPut bc data none)⟩ ∧
      (applyPut bc data none).image = bc.image) := by
  refine ⟨?_, ?_, ?_⟩
  · intro content himg
    exact ⟨by simp [BadgeClassDetail.put, h, himg, imageKept], by simp [applyPut]⟩
  · intro s himg hscheme
    exact ⟨by simp [BadgeClassDetail.put, h, himg, imageKept, hscheme],
           by simp [applyPut]⟩
  · intro s himg hscheme
    exact ⟨by simp [BadgeClassDetail.put, h, himg, imageKept, hscheme],
           by simp [applyPut]⟩

/-- C6 witness: updating the sample badge class with an echoed-back plain URL
keeps the stored image, while a data-URI replaces it. -/
theorem c6_put_image_handling_witness :
    (BadgeClassDetail.put [⟨"excellence", "acme", "n", "c", "d", "img", 0, 0, []⟩]
        (fun _ => true) "excellence"
        ⟨"n2", "c2", "d2", some (.strVal "http://example.com/i.png")⟩).1 =
      .ok ⟨200, .badgeclassRep
        (applyPut ⟨"excellence", "acme", "n", "c", "d", "img", 0, 0, []⟩
          ⟨"n2", "c2", "d2", some (.strVal "http://example.com/i.png")⟩ none)⟩ ∧
    (applyPut ⟨"excellence", "acme", "n", "c", "d", "img", 0, 0, []⟩
        ⟨"n2", "c2", "d2", some (.strVal "http://example.com/i.png")⟩ none).image = "img" ∧
    (applyPut ⟨"excellence", "acme", "n", "c", "d", "img", 0, 0, []⟩
        ⟨"n2", "c2", "d2", some (.strVal "data:image/png;base64,xyz")⟩
        (some (.strVal "data:image/png;base64,xyz"))).image =
      "data:image/png;base64,xyz" :=
  ⟨((c6_put_image_handling [⟨"excellence", "acme", "n", "c", "d", "img", 0, 0, []⟩]
      (fun _ => true) "excellence"
      ⟨"n2", "c2", "d2", some (.strVal "http://example.com/i.png")⟩
      ⟨"excellence", "acme", "n", "c", "d", "img", 0, 0, []⟩
      (by decide)).2.2 "http://example.com/i.png" rfl (by decide)).1,
   ((c6_put_image_handling [⟨"excellence", "acme", "n", "c", "d", "img", 0, 0, []⟩]
      (fun _ => true) "excellence"
      ⟨"n2", "c2", "d2", some (.strVal "http://example.com/i.png")⟩
      ⟨"excellence", "acme", "n", "c", "d", "img", 0, 0, []⟩
      (by decide)).2.2 "http://example.com/i.png" rfl (by decide)).2,
   ((c6_put_image_handling [⟨"excellence", "acme", "n", "c", "d", "img", 0, 0, []⟩]
      (fun _ => true) "excellence"
      ⟨"n2", "c2", "d2", some (.strVal "data:image/png;base64,xyz")⟩
      ⟨"excellence", "acme", "n", "c", "d", "img", 0, 0, []⟩
      (by decide)).2.1 "data:image/png;base64,xyz" rfl (by decide)).2⟩

end BadgrIssuer
